import Mathlib

/-!
Verification of the metric-extraction and ratio/risk/benchmark pipeline of the
Analyzing-Financial-Statement-AIChatbox repository.

The Python code stores metric and ratio values as floats or `None`; here a
value is `Option ℚ` (`none` models Python `None`, and exact rational
arithmetic stands in for float arithmetic, which is the usual idealisation
when the properties of interest are exact formulas and key presence).
Python dictionaries with a fixed key set become total functions out of a
finite key type, or structures with one `Option ℚ` field per key.
-/

namespace FinChat

/-- The fixed set of metric names of a `FinancialMetrics` record
(`financial_data` dict in `financial_analyzer.py` and
`FINANCIAL_FIELDS` in `data_extraction.py`). -/
inductive Field
  | revenue
  | sales
  | gross_profit
  | operating_income
  | net_income
  | total_assets
  | current_assets
  | total_liabilities
  | current_liabilities
  | equity
  | cash
  | cash_equivalents
  | inventory
  | accounts_receivable
  | operating_cash_flow
  | investing_cash_flow
  | financing_cash_flow
  | free_cash_flow
  | total_debt
  | interest_expense
deriving DecidableEq, BEq

/-- A FinancialMetrics record: every recognized key maps to an optional number. -/
def FinancialMetrics : Type := Field → Option ℚ

/-- Python truthiness of an optional number: `None` and `0` are falsy. -/
def truthy (v : Option ℚ) : Bool :=
  match v with
  | some x => decide (x ≠ 0)
  | none => false

/-- Python comparison `v > 0` evaluated on a present value (in the source it
only runs after a truthiness guard, so `none` cannot reach it; mapped to
`false` for totality). -/
def posQ (v : Option ℚ) : Bool :=
  match v with
  | some x => decide (0 < x)
  | none => false

/-- Extract the value of an optional number (only used under guards that
force it to be present). -/
def qget (v : Option ℚ) : ℚ := v.getD 0

/-- Python `a or b` on two optional numbers: `b` when `a` is falsy. -/
def pyOr (a b : Option ℚ) : Option ℚ := if truthy a then a else b

/-- Build a concrete FinancialMetrics record from a key/value list; keys not
listed are unknown (`None`). -/
def fdOf (l : List (Field × ℚ)) : FinancialMetrics :=
  fun k => (l.find? (fun p => p.1 == k)).map (fun p => p.2)

/-- The all-unknown FinancialMetrics record. -/
def emptyFd : FinancialMetrics := fun _ => none

/-- `revenue = financial_data.get('revenue') or financial_data.get('sales')`
in `calculate_ratios`. -/
def effRevenue (fd : FinancialMetrics) : Option ℚ :=
  pyOr (fd .revenue) (fd .sales)

/-- `cash = financial_data.get('cash') or financial_data.get('cash_equivalents')`
in `calculate_ratios`. -/
def effCash (fd : FinancialMetrics) : Option ℚ :=
  pyOr (fd .cash) (fd .cash_equivalents)

/-- The ratio dictionary built by `calculate_ratios`; a `none` field models
the key being absent from the Python dict. -/
structure RatioSet where
  profit_margin : Option ℚ := none
  gross_margin : Option ℚ := none
  operating_margin : Option ℚ := none
  roa : Option ℚ := none
  roe : Option ℚ := none
  current_ratio : Option ℚ := none
  quick_ratio : Option ℚ := none
  cash_ratio : Option ℚ := none
  debt_to_asset_ratio : Option ℚ := none
  equity_multiplier : Option ℚ := none
  debt_to_equity_ratio : Option ℚ := none
  interest_coverage : Option ℚ := none
  asset_turnover : Option ℚ := none
  inventory_turnover : Option ℚ := none
  cash_flow_to_revenue : Option ℚ := none
  free_cash_flow_margin : Option ℚ := none
deriving DecidableEq

/-- `FinancialAnalyzer.calculate_ratios` (financial_analyzer.py lines 104-216).
Each field mirrors one `if ... : ratios[key] = ...` statement; the guards are
the literal Python conditions, with `and`-chains of truthiness tests
(`truthy`) followed by the `> 0` comparison (`posQ`). -/
def calculate_ratios (fd : FinancialMetrics) : RatioSet where
  profit_margin :=
    if truthy (effRevenue fd) && truthy (fd .net_income) && posQ (effRevenue fd) then
      some (qget (fd .net_income) / qget (effRevenue fd) * 100)
    else none
  gross_margin :=
    if truthy (effRevenue fd) && truthy (fd .gross_profit) && posQ (effRevenue fd) then
      some (qget (fd .gross_profit) / qget (effRevenue fd) * 100)
    else none
  operating_margin :=
    if truthy (effRevenue fd) && truthy (fd .operating_income) && posQ (effRevenue fd) then
      some (qget (fd .operating_income) / qget (effRevenue fd) * 100)
    else none
  roa :=
    if truthy (fd .net_income) && truthy (fd .total_assets) && posQ (fd .total_assets) then
      some (qget (fd .net_income) / qget (fd .total_assets) * 100)
    else none
  roe :=
    if truthy (fd .net_income) && truthy (fd .equity) && posQ (fd .equity) then
      some (qget (fd .net_income) / qget (fd .equity) * 100)
    else none
  current_ratio :=
    if truthy (fd .current_assets) && truthy (fd .current_liabilities) &&
        posQ (fd .current_liabilities) then
      some (qget (fd .current_assets) / qget (fd .current_liabilities))
    else none
  quick_ratio :=
    if truthy (fd .current_assets) && truthy (fd .current_liabilities) &&
        posQ (fd .current_liabilities) then
      some ((if truthy (fd .inventory) then
               qget (fd .current_assets) - qget (fd .inventory)
             else if truthy (fd .accounts_receivable) then
               qget (fd .current_assets) - qget (fd .accounts_receivable)
             else qget (fd .current_assets)) / qget (fd .current_liabilities))
    else none
  cash_ratio :=
    if truthy (effCash fd) && truthy (fd .current_liabilities) &&
        posQ (fd .current_liabilities) then
      some (qget (effCash fd) / qget (fd .current_liabilities))
    else none
  debt_to_asset_ratio :=
    if truthy (fd .total_assets) && truthy (fd .total_liabilities) &&
        posQ (fd .total_assets) then
      some (qget (fd .total_liabilities) / qget (fd .total_assets) * 100)
    else none
  equity_multiplier :=
    if truthy (fd .total_assets) && truthy (fd .equity) && posQ (fd .equity) then
      some (qget (fd .total_assets) / qget (fd .equity))
    else none
  debt_to_equity_ratio :=
    if truthy (fd .total_liabilities) && truthy (fd .equity) && posQ (fd .equity) then
      some (qget (fd .total_liabilities) / qget (fd .equity) * 100)
    else none
  interest_coverage :=
    if truthy (fd .operating_income) && truthy (fd .interest_expense) &&
        posQ (fd .interest_expense) then
      some (qget (fd .operating_income) / qget (fd .interest_expense))
    else if truthy (fd .net_income) && truthy (fd .interest_expense) &&
        posQ (fd .interest_expense) then
      some ((qget (fd .net_income) + qget (fd .interest_expense)) / qget (fd .interest_expense))
    else none
  asset_turnover :=
    if truthy (effRevenue fd) && truthy (fd .total_assets) && posQ (fd .total_assets) then
      some (qget (effRevenue fd) / qget (fd .total_assets))
    else none
  inventory_turnover :=
    if truthy (fd .inventory) && posQ (fd .inventory) then
      if truthy (effRevenue fd) then
        some (qget (effRevenue fd) * 0.65 / qget (fd .inventory))
      else none
    else none
  cash_flow_to_revenue :=
    if truthy (fd .operating_cash_flow) && truthy (effRevenue fd) &&
        posQ (effRevenue fd) then
      some (qget (fd .operating_cash_flow) / qget (effRevenue fd) * 100)
    else none
  free_cash_flow_margin := fd .free_cash_flow

/-!
## Risk assessor

`FinancialAnalyzer.assess_risks` (financial_analyzer.py lines 309-470).
The Python dicts `{'type': ..., 'severity': ..., 'description': ...}` are
modelled by a `Risk` of type and severity; the English `description` strings
carry no logic (the only code reading them back is the Loss-Risk
deduplication, which compares `type` only) and are not modelled.
Each rule group of the source becomes one helper definition; `assess_risks`
concatenates the groups in source order.
-/

/-- A risk entry: its `type` and `severity` strings. -/
structure Risk where
  rtype : String
  severity : String
deriving DecidableEq

/-- Profit-margin rule group: `profit_margin = ratios.get('profit_margin', 0)`
followed by the `< 0` / `< 3` / `< 5` tier chain. -/
def profitMarginGroup (pm : ℚ) : List Risk :=
  if pm < 0 then [⟨"Loss Risk", "High"⟩]
  else if pm < 3 then [⟨"Profitability Risk", "High"⟩]
  else if pm < 5 then [⟨"Profitability Risk", "Medium"⟩]
  else []

/-- Negative-net-income rule: fires when `net_income` is present and negative
and no "Loss Risk" entry was appended so far. -/
def lossGroup (ni : Option ℚ) (sofar : List Risk) : List Risk :=
  match ni with
  | some v =>
    if v < 0 && !(sofar.any (fun r => r.rtype == "Loss Risk")) then
      [⟨"Loss Risk", "High"⟩]
    else []
  | none => []

/-- ROA rule group (`roa = ratios.get('roa', 0)`). -/
def roaGroup (roa : ℚ) : List Risk :=
  if roa < 0 then [⟨"Asset Efficiency Risk", "High"⟩]
  else if roa < 2 then [⟨"Asset Efficiency Risk", "Medium"⟩]
  else []

/-- ROE rule group (`roe = ratios.get('roe', 0)`). -/
def roeGroup (roe : ℚ) : List Risk :=
  if roe < 0 then [⟨"Shareholder Value Risk", "High"⟩]
  else if roe < 5 then [⟨"Shareholder Value Risk", "Medium"⟩]
  else []

/-- Current-ratio rule group (`current_ratio = ratios.get('current_ratio', 0)`). -/
def currentRatioGroup (cr : ℚ) : List Risk :=
  if cr < 1 then [⟨"Liquidity Risk", "High"⟩]
  else if cr < 1.5 then [⟨"Liquidity Risk", "Medium"⟩]
  else []

/-- Quick-ratio rule group (`quick_ratio = ratios.get('quick_ratio', 0)`). -/
def quickRatioGroup (qr : ℚ) : List Risk :=
  if qr < 0.5 then [⟨"Liquidity Risk", "High"⟩]
  else if qr < 1 then [⟨"Liquidity Risk", "Medium"⟩]
  else []

/-- Debt-to-asset rule group (`debt_to_asset = ratios.get('debt_to_asset_ratio', 0)`);
the High tier is the strict comparison `> 70`. -/
def debtToAssetGroup (d : ℚ) : List Risk :=
  if d > 70 then [⟨"Leverage Risk", "High"⟩]
  else if d > 60 then [⟨"Leverage Risk", "Medium"⟩]
  else []

/-- Debt-to-equity rule group (`debt_to_equity = ratios.get('debt_to_equity_ratio', 0)`). -/
def debtToEquityGroup (d : ℚ) : List Risk :=
  if d > 200 then [⟨"Leverage Risk", "High"⟩]
  else if d > 100 then [⟨"Leverage Risk", "Medium"⟩]
  else []

/-- Interest-coverage rule group: unlike the other ratio groups this one uses
`ratios.get('interest_coverage', None)` and only evaluates when present. -/
def solvencyGroup (ic : Option ℚ) : List Risk :=
  match ic with
  | some v =>
    if v < 1 then [⟨"Solvency Risk", "High"⟩]
    else if v < 2 then [⟨"Solvency Risk", "Medium"⟩]
    else []
  | none => []

/-- Operating-cash-flow rule: fires when present and negative. -/
def ocfGroup (ocf : Option ℚ) : List Risk :=
  match ocf with
  | some v => if v < 0 then [⟨"Cash Flow Risk", "High"⟩] else []
  | none => []

/-- Free-cash-flow rule: fires when present and negative. -/
def fcfGroup (fcf : Option ℚ) : List Risk :=
  match fcf with
  | some v => if v < 0 then [⟨"Cash Flow Risk", "Medium"⟩] else []
  | none => []

/-- `FinancialAnalyzer.assess_risks`: the risk list is the concatenation of
the rule groups in source order.  Missing ratios default to `0`
(`ratios.get(key, 0)`, here `qget`) for every group except interest
coverage. -/
def assess_risks (fd : FinancialMetrics) (rs : RatioSet) : List Risk :=
  profitMarginGroup (qget rs.profit_margin) ++
  lossGroup (fd .net_income) (profitMarginGroup (qget rs.profit_margin)) ++
  roaGroup (qget rs.roa) ++
  roeGroup (qget rs.roe) ++
  currentRatioGroup (qget rs.current_ratio) ++
  quickRatioGroup (qget rs.quick_ratio) ++
  debtToAssetGroup (qget rs.debt_to_asset_ratio) ++
  debtToEquityGroup (qget rs.debt_to_equity_ratio) ++
  solvencyGroup rs.interest_coverage ++
  ocfGroup (fd .operating_cash_flow) ++
  fcfGroup (fd .free_cash_flow)

/-!
## Trend analyzer

`FinancialAnalyzer.identify_trends` (financial_analyzer.py lines 218-307).
-/

/-- Round half to even at integer precision (Python `round` tie-breaking,
idealised to exact rationals). -/
def roundHalfEven (x : ℚ) : ℤ :=
  if x - ⌊x⌋ < 1/2 then ⌊x⌋
  else if x - ⌊x⌋ > 1/2 then ⌊x⌋ + 1
  else if ⌊x⌋ % 2 = 0 then ⌊x⌋ else ⌊x⌋ + 1

/-- Python `round(x, 2)` idealised to exact rationals. -/
def round2 (x : ℚ) : ℚ := (roundHalfEven (x * 100) : ℚ) / 100

/-- One entry of the `historical_data` list handed to `identify_trends`:
a per-period metric record, optionally tagged with a `'period'` label. -/
structure PeriodData where
  period : Option String := none
  data : FinancialMetrics

/-- The result dict of `identify_trends`.  Keys that the code only adds
conditionally (`revenue_cagr`, `revenue_yoy`, `profit_yoy`, `message`) are
`Option` fields defaulting to `none`, like the always-initialised trend and
growth-rate keys.  The code computes the CAGR value as
`((last/first) ** (1/years) - 1) * 100` rounded to 2 places — a real-number
power with no exact rational counterpart — so the `revenue_cagr` field
records the `(last, first, years)` arguments of that computation instead of
the transcendental result; its presence is exactly that of the source's key. -/
structure Trends where
  revenue_trend : Option String := none
  profit_trend : Option String := none
  asset_trend : Option String := none
  revenue_growth_rate : Option ℚ := none
  profit_growth_rate : Option ℚ := none
  asset_growth_rate : Option ℚ := none
  periods : List String := []
  revenue_values : List ℚ := []
  net_income_values : List ℚ := []
  total_assets_values : List ℚ := []
  revenue_cagr : Option (ℚ × ℚ × ℕ) := none
  revenue_yoy : Option ℚ := none
  profit_yoy : Option ℚ := none
  message : Option String := none

/-- The insufficient-data message returned for fewer than 2 periods. -/
def insufficientMsg : String :=
  "Insufficient data for trend analysis. Need at least 2 periods."

/-- `x if x else 0` applied to a metric read: unknown and zero both give 0. -/
def orZero (v : Option ℚ) : ℚ := if truthy v then qget v else 0

/-- `FinancialAnalyzer.identify_trends`. -/
def identify_trends (hist : List PeriodData) : Trends :=
  if hist.length < 2 then
    { message := some insufficientMsg }
  else
    let periods := hist.enum.map (fun p =>
      match p.2.period with
      | some s => s
      | none => "Period " ++ toString (p.1 + 1))
    let revenues := hist.map (fun p => orZero (pyOr (p.data .revenue) (p.data .sales)))
    let profits := hist.map (fun p => orZero (p.data .net_income))
    let assets := hist.map (fun p => orZero (p.data .total_assets))
    let n := hist.length
    let rFirst := revenues.getD 0 0
    let rLast := revenues.getD (n - 1) 0
    let pFirst := profits.getD 0 0
    let pLast := profits.getD (n - 1) 0
    let aFirst := assets.getD 0 0
    let aLast := assets.getD (n - 1) 0
    let rPrev := revenues.getD (n - 2) 0
    let pPrev := profits.getD (n - 2) 0
    { periods := periods
      revenue_values := revenues
      net_income_values := profits
      total_assets_values := assets
      revenue_trend :=
        if 0 < rFirst then
          some (if 0 < (rLast - rFirst) / rFirst * 100 then "increasing" else "decreasing")
        else none
      revenue_growth_rate :=
        if 0 < rFirst then some (round2 ((rLast - rFirst) / rFirst * 100)) else none
      revenue_cagr :=
        if 0 < rFirst ∧ 2 < n then some (rLast, rFirst, n - 1) else none
      profit_trend :=
        if pFirst ≠ 0 then
          some (if 0 < (pLast - pFirst) / |pFirst| * 100 then "increasing" else "decreasing")
        else some (if pFirst < pLast then "increasing" else "decreasing")
      profit_growth_rate :=
        if pFirst ≠ 0 then some (round2 ((pLast - pFirst) / |pFirst| * 100)) else none
      asset_trend :=
        if 0 < aFirst then
          some (if 0 < (aLast - aFirst) / aFirst * 100 then "increasing" else "decreasing")
        else none
      asset_growth_rate :=
        if 0 < aFirst then some (round2 ((aLast - aFirst) / aFirst * 100)) else none
      revenue_yoy :=
        if 0 < rPrev then some (round2 ((rLast - rPrev) / rPrev * 100)) else none
      profit_yoy :=
        if pPrev ≠ 0 then some (round2 ((pLast - pPrev) / |pPrev| * 100)) else none
      message := none }

/-!
## Peer benchmark comparator

`PeerBenchmark` (src/utils/peer_benchmark.py).
-/

/-- ASCII whitespace stripped by Python `str.strip()`. -/
def isPySpace (c : Char) : Bool :=
  c = ' ' || c = '\t' || c = '\n' || c = '\r' || c = '\x0b' || c = '\x0c'

/-- Python `str.strip()` on a character list. -/
def trimChars (l : List Char) : List Char :=
  ((l.dropWhile isPySpace).reverse.dropWhile isPySpace).reverse

/-- Python `str.lower()` (ASCII). -/
def lowerStr (s : String) : String := ⟨s.data.map Char.toLower⟩

/-- Python `str.title()` (ASCII): a letter is uppercased when the previous
character is not a letter, lowercased otherwise. -/
def titleCaseAux : Bool → List Char → List Char
  | _, [] => []
  | prevAlpha, c :: rest =>
    (if c.isAlpha then (if prevAlpha then c.toLower else c.toUpper) else c) ::
      titleCaseAux c.isAlpha rest

/-- Python `str.title()`. -/
def titleCase (s : String) : String := ⟨titleCaseAux false s.data⟩

/-- One row of a benchmark comparison
(`{'metric', 'company', 'benchmark', 'difference'}`). -/
structure CompRow where
  metric : String
  company : ℚ
  benchmark : ℚ
  difference : ℚ
deriving DecidableEq

/-- The result of `PeerBenchmark.compare`.  The code's `summary` string is
rendered from the first comparison row of maximal rounded difference among
those with positive difference and the first row of minimal rounded
difference among those with negative difference; the two rows are recorded
here (`_build_summary` only formats them into English). -/
structure BenchmarkResult where
  industry : String
  metrics : List CompRow
  alerts : List String
  summaryTop : Option CompRow
  summaryLag : Option CompRow

/-- `DEFAULT_BENCHMARKS` (peer_benchmark.py lines 9-54), an association list
in the dict's insertion order. -/
def DEFAULT_BENCHMARKS : List (String × List (String × ℚ)) :=
  [("general",
    [("profit_margin", 8.0), ("roa", 5.0), ("roe", 12.0), ("current_ratio", 1.5),
     ("quick_ratio", 1.0), ("debt_to_asset_ratio", 55.0), ("debt_to_equity_ratio", 110.0)]),
   ("technology",
    [("profit_margin", 12.0), ("roa", 8.0), ("roe", 15.0), ("current_ratio", 1.8),
     ("quick_ratio", 1.4), ("debt_to_asset_ratio", 45.0), ("debt_to_equity_ratio", 90.0)]),
   ("retail",
    [("profit_margin", 6.0), ("roa", 4.0), ("roe", 10.0), ("current_ratio", 1.3),
     ("quick_ratio", 0.8), ("debt_to_asset_ratio", 65.0), ("debt_to_equity_ratio", 150.0)]),
   ("manufacturing",
    [("profit_margin", 9.0), ("roa", 6.0), ("roe", 13.0), ("current_ratio", 1.6),
     ("quick_ratio", 1.1), ("debt_to_asset_ratio", 60.0), ("debt_to_equity_ratio", 130.0)])]

/-- `ratios.get(metric)` for the string-keyed loop of `compare`. -/
def ratioGet (rs : RatioSet) (name : String) : Option ℚ :=
  if name = "profit_margin" then rs.profit_margin
  else if name = "gross_margin" then rs.gross_margin
  else if name = "operating_margin" then rs.operating_margin
  else if name = "roa" then rs.roa
  else if name = "roe" then rs.roe
  else if name = "current_ratio" then rs.current_ratio
  else if name = "quick_ratio" then rs.quick_ratio
  else if name = "cash_ratio" then rs.cash_ratio
  else if name = "debt_to_asset_ratio" then rs.debt_to_asset_ratio
  else if name = "equity_multiplier" then rs.equity_multiplier
  else if name = "debt_to_equity_ratio" then rs.debt_to_equity_ratio
  else if name = "interest_coverage" then rs.interest_coverage
  else if name = "asset_turnover" then rs.asset_turnover
  else if name = "inventory_turnover" then rs.inventory_turnover
  else if name = "cash_flow_to_revenue" then rs.cash_flow_to_revenue
  else if name = "free_cash_flow_margin" then rs.free_cash_flow_margin
  else none

/-- Python truthiness of the ratio dict (`if not ratios: return None`):
empty iff every key is absent. -/
def rsIsEmpty (rs : RatioSet) : Bool :=
  rs.profit_margin.isNone && rs.gross_margin.isNone && rs.operating_margin.isNone &&
  rs.roa.isNone && rs.roe.isNone && rs.current_ratio.isNone && rs.quick_ratio.isNone &&
  rs.cash_ratio.isNone && rs.debt_to_asset_ratio.isNone && rs.equity_multiplier.isNone &&
  rs.debt_to_equity_ratio.isNone && rs.interest_coverage.isNone && rs.asset_turnover.isNone &&
  rs.inventory_turnover.isNone && rs.cash_flow_to_revenue.isNone &&
  rs.free_cash_flow_margin.isNone

/-- `(industry or 'general').strip().lower()`. -/
def normalizeIndustry (industry : Option String) : String :=
  let s := match industry with
    | some s => if s = "" then "general" else s
    | none => "general"
  lowerStr ⟨trimChars s.data⟩

/-- One step of the `for metric, benchmark_value in benchmark_ratios.items()`
loop: appends at most one comparison row and at most one alert (the alert is
recorded as the offending metric's name; the code wraps it in an English
sentence). -/
def compareStep (rs : RatioSet) (acc : List CompRow × List String) (p : String × ℚ) :
    List CompRow × List String :=
  match ratioGet rs p.1 with
  | none => acc
  | some cv =>
    let d := cv - p.2
    let row : CompRow := ⟨p.1, round2 cv, p.2, round2 d⟩
    let alerts :=
      if p.1 = "profit_margin" ∨ p.1 = "roa" ∨ p.1 = "roe" then
        if d ≤ -5 then acc.2 ++ [p.1] else acc.2
      else if p.1 = "current_ratio" ∨ p.1 = "quick_ratio" then
        if d ≤ -0.3 then acc.2 ++ [p.1] else acc.2
      else if p.1 = "debt_to_asset_ratio" ∨ p.1 = "debt_to_equity_ratio" then
        if d ≥ 10 then acc.2 ++ [p.1] else acc.2
      else acc.2
    (acc.1 ++ [row], alerts)

/-- Python `max(l, key=difference)`: the first row of maximal difference. -/
def pickMax : List CompRow → Option CompRow
  | [] => none
  | c :: rest => some (rest.foldl (fun best x => if best.difference < x.difference then x else best) c)

/-- Python `min(l, key=difference)`: the first row of minimal difference. -/
def pickMin : List CompRow → Option CompRow
  | [] => none
  | c :: rest => some (rest.foldl (fun best x => if x.difference < best.difference then x else best) c)

/-- `PeerBenchmark.compare` over a benchmark table (`self.benchmarks`);
`fd` is the `financial_data` argument, which the source accepts but never
reads. -/
def compareBench (benchmarks : List (String × List (String × ℚ)))
    (_fd : FinancialMetrics) (rs : RatioSet) (industry : Option String) :
    Option BenchmarkResult :=
  if rsIsEmpty rs then none
  else
    let norm0 := normalizeIndustry industry
    let norm := if (benchmarks.find? (fun p => p.1 == norm0)).isSome then norm0 else "general"
    let table := match benchmarks.find? (fun p => p.1 == norm) with
      | some p => p.2
      | none => []
    let res := table.foldl (compareStep rs) ([], [])
    if res.1.isEmpty then none
    else
      some { industry := titleCase norm
             metrics := res.1
             alerts := res.2
             summaryTop := pickMax (res.1.filter (fun c => 0 < c.difference))
             summaryLag := pickMin (res.1.filter (fun c => c.difference < 0)) }

/-- The ratio dict of the benchmark test fixture:
`{profit_margin: 6.0, debt_to_asset_ratio: 70.0}`. -/
def benchFixtureRs : RatioSet :=
  { profit_margin := some 6.0, debt_to_asset_ratio := some 70.0 }

/-!
## Numeric normalizer

`_to_number` (src/utils/data_extraction.py lines 200-240).
-/

/-- A raw cell value reaching `_to_number`: Python `None`, an `int`/`float`
(`vNum`, exact; a float that is NaN or infinite is `vNanOrInf`), a string,
or any other type. -/
inductive CellValue
  | vNone
  | vNum (q : ℚ)
  | vNanOrInf
  | vStr (s : String)
  | vOther

/-- Remove every (leftmost, non-overlapping) occurrence of `"USD"`
(Python `cleaned.replace('USD', '')`). -/
def removeUSD : List Char → List Char
  | 'U' :: 'S' :: 'D' :: rest => removeUSD rest
  | c :: rest => c :: removeUSD rest
  | [] => []

/-- Digit-string value (the characters are known to be digits). -/
def digitsToNat (ds : List Char) : ℕ :=
  ds.foldl (fun a c => a * 10 + (c.toNat - 48)) 0

/-- Python `float(s)` restricted to the strings that can reach it in
`_to_number`: after the regex `[^0-9\.\-]` filter the string holds only
digits, dots and minus signs.  `float` accepts an optional leading minus,
then digits with at most one dot and at least one digit; everything else
(interior minus, two dots, no digits) raises `ValueError` (`none`). -/
def parseFloat (l : List Char) : Option ℚ :=
  let neg := l.head? = some '-'
  let body := if neg then l.drop 1 else l
  if body.contains '-' then none
  else
    let ip := body.takeWhile (fun c => !(c = '.'))
    let rest := body.dropWhile (fun c => !(c = '.'))
    match rest with
    | [] =>
      if ip.isEmpty || !(ip.all Char.isDigit) then none
      else some (if neg then -(digitsToNat ip : ℚ) else (digitsToNat ip : ℚ))
    | _ :: frac =>
      if frac.contains '.' then none
      else if ip.isEmpty && frac.isEmpty then none
      else if !(ip.all Char.isDigit) || !(frac.all Char.isDigit) then none
      else
        some (if neg then -((digitsToNat ip : ℚ) + (digitsToNat frac : ℚ) / 10 ^ frac.length)
              else (digitsToNat ip : ℚ) + (digitsToNat frac : ℚ) / 10 ^ frac.length)

/-- `_to_number`: convert a cell value to a number if possible.  NaN and
infinity have no rational counterpart, so the numeric branch's
`math.isnan/math.isinf` rejection is carried by the `vNanOrInf`
constructor. -/
def to_number : CellValue → Option ℚ
  | .vNone => none
  | .vNum q => some q
  | .vNanOrInf => none
  | .vOther => none
  | .vStr s =>
    let cleaned0 := trimChars s.data
    if cleaned0.isEmpty then none
    else
      let neg := cleaned0.head? = some '(' && cleaned0.getLast? = some ')'
      let inner := if neg then (cleaned0.drop 1).dropLast else cleaned0
      let c1 := inner.filter (fun c => !(c = ','))
      let c2 := c1.filter (fun c => !(c = '$'))
      let c3 := c2.filter (fun c => !(c = '%'))
      let c4 := trimChars (removeUSD c3)
      let c5 := c4.filter (fun c => c.isDigit || c = '.' || c = '-')
      if c5.isEmpty || c5 = ['-'] then none
      else
        match parseFloat c5 with
        | some q => some (if neg then -q else q)
        | none => none

/-!
## Text adapter

`FinancialAnalyzer._extract_numbers` and
`FinancialAnalyzer.extract_financial_data`
(financial_analyzer.py lines 18-102 and 510-515).

`_extract_numbers` is `re.findall(r'\d+(?:,\d{3})*(?:\.\d+)?', text)`.
The pattern is deterministic under greedy matching (a `\d+` run is maximal;
each comma group needs exactly three digits; the decimal tail needs a dot
followed by at least one digit), so the scan below reproduces `findall`'s
leftmost, non-overlapping matches without backtracking.
-/

/-- Greedy `(?:,\d{3})*`: consume comma groups of exactly three digits,
returning the collected digits and the remaining input. -/
def scanGroups : List Char → List Char × List Char
  | ',' :: a :: b :: c :: rest =>
    if a.isDigit && b.isDigit && c.isDigit then
      let p := scanGroups rest
      (a :: b :: c :: p.1, p.2)
    else ([], ',' :: a :: b :: c :: rest)
  | l => ([], l)

/-- Greedy `(?:\.\d+)?`: consume a dot followed by at least one digit,
returning the fractional digits and the remaining input. -/
def scanFrac : List Char → List Char × List Char
  | '.' :: rest =>
    let ds := rest.takeWhile Char.isDigit
    if ds.isEmpty then ([], '.' :: rest) else (ds, rest.dropWhile Char.isDigit)
  | l => ([], l)

/-- `float(match.replace(',', ''))`: the value of a matched number from its
integer digits (commas already dropped by the scan) and fractional digits. -/
def numFromParts (ip frac : List Char) : ℚ :=
  match frac with
  | [] => (digitsToNat ip : ℚ)
  | _ => (digitsToNat ip : ℚ) + (digitsToNat frac : ℚ) / 10 ^ frac.length

/-- Match the number regex at the current position (the head is known to be
a digit), returning the float value and the rest of the input. -/
def scanNumber (l : List Char) : ℚ × List Char :=
  let ds := l.takeWhile Char.isDigit
  let r1 := l.dropWhile Char.isDigit
  let g := scanGroups r1
  let f := scanFrac g.2
  (numFromParts (ds ++ g.1) f.1, f.2)

/-- Leftmost non-overlapping scan of the whole text; the fuel argument is the
input length (each match consumes at least one character). -/
def extractNumsAux : ℕ → List Char → List ℚ
  | 0, _ => []
  | _, [] => []
  | fuel + 1, c :: rest =>
    if c.isDigit then
      let p := scanNumber (c :: rest)
      p.1 :: extractNumsAux fuel p.2
    else extractNumsAux fuel rest

/-- `FinancialAnalyzer._extract_numbers`. -/
def extract_numbers (l : List Char) : List ℚ := extractNumsAux l.length l

/-- `text_data.split('\n')`. -/
def splitLines : List Char → List (List Char)
  | [] => [[]]
  | c :: rest =>
    let r := splitLines rest
    if c = '\n' then [] :: r
    else
      match r with
      | h :: t => (c :: h) :: t
      | [] => [[c]]

/-- Match a keyword regex — literal words joined by `\s+` — at the start of
the input. -/
def matchWords : List (List Char) → List Char → Bool
  | [], _ => true
  | [w], l => w.isPrefixOf l
  | w :: w2 :: ws, l =>
    w.isPrefixOf l &&
      (let rest := l.drop w.length
       !(rest.takeWhile isPySpace).isEmpty &&
         matchWords (w2 :: ws) (rest.dropWhile isPySpace))

/-- `re.search` of a keyword regex: match at some position of the line. -/
def searchWords (ws : List (List Char)) : List Char → Bool
  | [] => matchWords ws []
  | c :: rest => matchWords ws (c :: rest) || searchWords ws rest

/-- The `patterns` dict of `extract_financial_data` (lines 56-75): per field,
the ordered keyword regexes, each given as its `\s+`-separated words. -/
def patternsFor : Field → List (List String)
  | .revenue => [["revenue"], ["total", "revenue"], ["sales", "revenue"], ["net", "sales"]]
  | .sales => [["net", "sales"], ["total", "sales"], ["sales"]]
  | .gross_profit => [["gross", "profit"], ["gross", "income"]]
  | .operating_income => [["operating", "income"], ["operating", "profit"], ["ebit"]]
  | .net_income => [["net", "income"], ["net", "profit"], ["profit", "after", "tax"]]
  | .total_assets => [["total", "assets"], ["assets", "total"]]
  | .current_assets => [["current", "assets"], ["total", "current", "assets"]]
  | .total_liabilities => [["total", "liabilities"], ["liabilities", "total"]]
  | .current_liabilities => [["current", "liabilities"], ["total", "current", "liabilities"]]
  | .equity => [["total", "equity"], ["shareholders", "equity"], ["stockholders", "equity"],
                ["equity"]]
  | .cash => [["cash", "and", "cash", "equivalents"], ["cash"]]
  | .inventory => [["inventory"], ["inventories"]]
  | .accounts_receivable => [["accounts", "receivable"], ["receivables"]]
  | .operating_cash_flow => [["operating", "activities"], ["cash", "from", "operations"],
                             ["operating", "cash", "flow"]]
  | .investing_cash_flow => [["investing", "activities"], ["cash", "from", "investing"]]
  | .financing_cash_flow => [["financing", "activities"], ["cash", "from", "financing"]]
  | .total_debt => [["total", "debt"], ["long", "term", "debt"], ["short", "term", "debt"]]
  | .interest_expense => [["interest", "expense"], ["interest", "paid"]]
  | .cash_equivalents => []
  | .free_cash_flow => []

/-- The keys of the `patterns` dict in insertion order (the two fields with
no patterns, `cash_equivalents` and `free_cash_flow`, are not in the dict). -/
def analyzerKeys : List Field :=
  [.revenue, .sales, .gross_profit, .operating_income, .net_income, .total_assets,
   .current_assets, .total_liabilities, .current_liabilities, .equity, .cash,
   .inventory, .accounts_receivable, .operating_cash_flow, .investing_cash_flow,
   .financing_cash_flow, .total_debt, .interest_expense]

/-- The `for pattern in pattern_list` loop body: on the first pattern that
matches the lowercased line and yields a non-empty number list, take the
last number (`numbers[-1]`); a matching pattern whose line has no numbers
falls through to the next pattern. -/
def tryPatternsOnLine (lineLower line : List Char) : List (List String) → Option ℚ
  | [] => none
  | p :: ps =>
    if searchWords (p.map String.data) lineLower then
      match (extract_numbers line).getLast? with
      | some v => some v
      | none => tryPatternsOnLine lineLower line ps
    else tryPatternsOnLine lineLower line ps

/-- `financial_data[key] = v`. -/
def updateField (fd : FinancialMetrics) (k : Field) (v : Option ℚ) : FinancialMetrics :=
  fun f => if f = k then v else fd f

/-- The body of `for key, pattern_list in patterns.items()`: skip a key that
is already set, otherwise scan the line's patterns. -/
def scanKeyStep (line : List Char) (fd : FinancialMetrics) (k : Field) : FinancialMetrics :=
  if (fd k).isSome then fd
  else
    match tryPatternsOnLine (line.map Char.toLower) line (patternsFor k) with
    | some v => updateField fd k (some v)
    | none => fd

/-- The body of `for line in lines`: try every key on the line. -/
def scanLine (fd : FinancialMetrics) (line : List Char) : FinancialMetrics :=
  analyzerKeys.foldl (scanKeyStep line) fd

/-- `FinancialAnalyzer.extract_financial_data`: line-by-line keyword scan
(skipping already-set fields), then the sales→revenue fallback, then the
free-cash-flow derivation. -/
def extract_financial_data (text : String) : FinancialMetrics :=
  let fd1 := (splitLines text.data).foldl scanLine emptyFd
  let fd2 :=
    if (fd1 .revenue) = none && !((fd1 .sales) = none) then
      updateField fd1 .revenue (fd1 .sales)
    else fd1
  match fd2 .operating_cash_flow, fd2 .investing_cash_flow with
  | some a, some b => updateField fd2 .free_cash_flow (some (a + b))
  | _, _ => fd2

/-!
## External merge

`merge_llm_structured_data` is exported by `src/utils/__init__.py` and called
by `chatbot.py` and `api_server.py`, but the module defining it is not part
of the source tree; it is modelled here from the specification.
-/

/-- The recognized metric-name strings, in `FINANCIAL_FIELDS` order. -/
def fieldName : Field → String
  | .revenue => "revenue"
  | .sales => "sales"
  | .gross_profit => "gross_profit"
  | .operating_income => "operating_income"
  | .net_income => "net_income"
  | .total_assets => "total_assets"
  | .current_assets => "current_assets"
  | .total_liabilities => "total_liabilities"
  | .current_liabilities => "current_liabilities"
  | .equity => "equity"
  | .cash => "cash"
  | .cash_equivalents => "cash_equivalents"
  | .inventory => "inventory"
  | .accounts_receivable => "accounts_receivable"
  | .operating_cash_flow => "operating_cash_flow"
  | .investing_cash_flow => "investing_cash_flow"
  | .financing_cash_flow => "financing_cash_flow"
  | .free_cash_flow => "free_cash_flow"
  | .total_debt => "total_debt"
  | .interest_expense => "interest_expense"

/-- All recognized fields. -/
def allFields : List Field :=
  [.revenue, .sales, .gross_profit, .operating_income, .net_income, .total_assets,
   .current_assets, .total_liabilities, .current_liabilities, .equity, .cash,
   .cash_equivalents, .inventory, .accounts_receivable, .operating_cash_flow,
   .investing_cash_flow, .financing_cash_flow, .free_cash_flow, .total_debt,
   .interest_expense]

/-- Modelled from the spec: `merge_llm_structured_data` — whose defining
module is missing from the source tree (only its import in
`src/utils/__init__.py` and its call sites in `chatbot.py` / `api_server.py`
are present) — merges an external string-keyed metrics payload into a
FinancialMetrics record: for each recognized field, the external value
overwrites only if the external payload has that field's name with a known
value; local values are preserved when the payload lacks the field or holds
an unknown value.  Alongside the merged record it reports the list of
fields whose value was added or changed (the call sites' second/third
return components carry this audit metadata and free-text notes; the notes
carry no merge logic and are not modelled). -/
def merge_llm_structured_data (fd : FinancialMetrics)
    (payload : List (String × Option ℚ)) : FinancialMetrics × List Field :=
  let merged : FinancialMetrics := fun k =>
    match payload.find? (fun p => p.1 == fieldName k) with
    | some (_, some v) => some v
    | _ => fd k
  (merged, allFields.filter (fun k => !(merged k == fd k)))

/-!
## Supporting lemmas
-/

/-- Every number value built by the scanner is non-negative: it comes from
digit strings only. -/
lemma numFromParts_nonneg (ip frac : List Char) : 0 ≤ numFromParts ip frac := by
  unfold numFromParts
  match frac with
  | [] => positivity
  | _ :: _ => positivity

/-- Every number produced by the `_extract_numbers` scan is non-negative. -/
lemma extractNumsAux_nonneg :
    ∀ (fuel : ℕ) (l : List Char), ∀ q ∈ extractNumsAux fuel l, 0 ≤ q := by
  intro fuel
  induction fuel with
  | zero => intro l q hq; simp [extractNumsAux] at hq
  | succ n ih =>
    intro l q hq
    cases l with
    | nil => simp [extractNumsAux] at hq
    | cons c rest =>
      simp only [extractNumsAux] at hq
      split at hq
      · rcases List.mem_cons.mp hq with h | h
        · subst h; exact numFromParts_nonneg _ _
        · exact ih _ _ h
      · exact ih _ _ hq

/-- `_extract_numbers` returns only non-negative values: its regex
`\d+(?:,\d{3})*(?:\.\d+)?` matches unsigned literals only. -/
lemma extract_numbers_nonneg (l : List Char) : ∀ q ∈ extract_numbers l, 0 ≤ q :=
  extractNumsAux_nonneg l.length l

/-- A metric record whose known values are all non-negative. -/
def NonnegFd (fd : FinancialMetrics) : Prop :=
  ∀ k v, fd k = some v → 0 ≤ v

lemma nonnegFd_empty : NonnegFd emptyFd := by
  intro k v h
  simp [emptyFd] at h

lemma nonnegFd_update {fd : FinancialMetrics} {k : Field} {v : ℚ}
    (h : NonnegFd fd) (hv : 0 ≤ v) : NonnegFd (updateField fd k (some v)) := by
  intro f w hw
  unfold updateField at hw
  split at hw
  · cases hw; exact hv
  · exact h f w hw

lemma tryPatternsOnLine_nonneg (ll line : List Char) :
    ∀ (ps : List (List String)) (v : ℚ), tryPatternsOnLine ll line ps = some v → 0 ≤ v := by
  intro ps
  induction ps with
  | nil => intro v h; simp [tryPatternsOnLine] at h
  | cons p ps ih =>
    intro v h
    simp only [tryPatternsOnLine] at h
    split at h
    · rcases hlast : (extract_numbers line).getLast? with _ | x
      · rw [hlast] at h
        exact ih v h
      · rw [hlast] at h
        have h' : some x = some v := h
        cases h'
        exact extract_numbers_nonneg line v (List.mem_of_mem_getLast? hlast)
    · exact ih v h

lemma scanKeyStep_nonneg (line : List Char) {fd : FinancialMetrics}
    (h : NonnegFd fd) (k : Field) : NonnegFd (scanKeyStep line fd k) := by
  unfold scanKeyStep
  split
  · exact h
  · split
    · rename_i v heq
      exact nonnegFd_update h (tryPatternsOnLine_nonneg _ _ _ _ heq)
    · exact h

lemma scanLine_nonneg {fd : FinancialMetrics} (h : NonnegFd fd) (line : List Char) :
    NonnegFd (scanLine fd line) := by
  unfold scanLine
  generalize analyzerKeys = keys
  induction keys generalizing fd with
  | nil => exact h
  | cons k ks ih => exact ih (scanKeyStep_nonneg line h k)

lemma foldLines_nonneg (lines : List (List Char)) {fd : FinancialMetrics}
    (h : NonnegFd fd) : NonnegFd (lines.foldl scanLine fd) := by
  induction lines generalizing fd with
  | nil => exact h
  | cons l ls ih => exact ih (scanLine_nonneg h l)

lemma nonnegFd_updateO {fd : FinancialMetrics} {k : Field} {o : Option ℚ}
    (h : NonnegFd fd) (ho : ∀ w, o = some w → 0 ≤ w) : NonnegFd (updateField fd k o) := by
  intro f w hw
  unfold updateField at hw
  split at hw
  · exact ho w hw
  · exact h f w hw

lemma nonnegFd_salesStep {fd : FinancialMetrics} (h : NonnegFd fd) :
    NonnegFd (if (fd .revenue) = none && !((fd .sales) = none) then
      updateField fd .revenue (fd .sales) else fd) := by
  split
  · exact nonnegFd_updateO h (fun w hw => h _ w hw)
  · exact h

lemma nonnegFd_fcfStep {fd : FinancialMetrics} (h : NonnegFd fd) :
    NonnegFd (match fd .operating_cash_flow, fd .investing_cash_flow with
      | some a, some b => updateField fd .free_cash_flow (some (a + b))
      | _, _ => fd) := by
  rcases ho : fd .operating_cash_flow with _ | a
  · exact h
  · rcases hi : fd .investing_cash_flow with _ | b
    · exact h
    · exact nonnegFd_update h (add_nonneg (h _ a ho) (h _ b hi))

/-- All values of the record built by `extract_financial_data` are
non-negative. -/
lemma extract_financial_data_nonneg (text : String) : NonnegFd (extract_financial_data text) :=
  nonnegFd_fcfStep (nonnegFd_salesStep (foldLines_nonneg _ nonnegFd_empty))

/-- `posQ d = true` states the denominator `d` is known and strictly
positive; each `*_guard` lemma shows a ratio key is only ever produced
under that check on its division's denominator. -/
lemma profit_margin_guard (fd : FinancialMetrics)
    (h : (calculate_ratios fd).profit_margin ≠ none) : posQ (effRevenue fd) = true := by
  by_cases hc : posQ (effRevenue fd) = true
  · exact hc
  · rw [Bool.not_eq_true] at hc
    refine absurd ?_ h
    show (if truthy (effRevenue fd) && truthy (fd .net_income) && posQ (effRevenue fd) then
        some (qget (fd .net_income) / qget (effRevenue fd) * 100) else none) = none
    simp [hc]

lemma gross_margin_guard (fd : FinancialMetrics)
    (h : (calculate_ratios fd).gross_margin ≠ none) : posQ (effRevenue fd) = true := by
  by_cases hc : posQ (effRevenue fd) = true
  · exact hc
  · rw [Bool.not_eq_true] at hc
    refine absurd ?_ h
    show (if truthy (effRevenue fd) && truthy (fd .gross_profit) && posQ (effRevenue fd) then
        some (qget (fd .gross_profit) / qget (effRevenue fd) * 100) else none) = none
    simp [hc]

lemma operating_margin_guard (fd : FinancialMetrics)
    (h : (calculate_ratios fd).operating_margin ≠ none) : posQ (effRevenue fd) = true := by
  by_cases hc : posQ (effRevenue fd) = true
  · exact hc
  · rw [Bool.not_eq_true] at hc
    refine absurd ?_ h
    show (if truthy (effRevenue fd) && truthy (fd .operating_income) && posQ (effRevenue fd) then
        some (qget (fd .operating_income) / qget (effRevenue fd) * 100) else none) = none
    simp [hc]

lemma roa_guard (fd : FinancialMetrics)
    (h : (calculate_ratios fd).roa ≠ none) : posQ (fd .total_assets) = true := by
  by_cases hc : posQ (fd .total_assets) = true
  · exact hc
  · rw [Bool.not_eq_true] at hc
    refine absurd ?_ h
    show (if truthy (fd .net_income) && truthy (fd .total_assets) && posQ (fd .total_assets) then
        some (qget (fd .net_income) / qget (fd .total_assets) * 100) else none) = none
    simp [hc]

lemma roe_guard (fd : FinancialMetrics)
    (h : (calculate_ratios fd).roe ≠ none) : posQ (fd .equity) = true := by
  by_cases hc : posQ (fd .equity) = true
  · exact hc
  · rw [Bool.not_eq_true] at hc
    refine absurd ?_ h
    show (if truthy (fd .net_income) && truthy (fd .equity) && posQ (fd .equity) then
        some (qget (fd .net_income) / qget (fd .equity) * 100) else none) = none
    simp [hc]

lemma current_ratio_guard (fd : FinancialMetrics)
    (h : (calculate_ratios fd).current_ratio ≠ none) :
    posQ (fd .current_liabilities) = true := by
  by_cases hc : posQ (fd .current_liabilities) = true
  · exact hc
  · rw [Bool.not_eq_true] at hc
    refine absurd ?_ h
    show (if truthy (fd .current_assets) && truthy (fd .current_liabilities) &&
          posQ (fd .current_liabilities) then
        some (qget (fd .current_assets) / qget (fd .current_liabilities)) else none) = none
    simp [hc]

lemma quick_ratio_guard (fd : FinancialMetrics)
    (h : (calculate_ratios fd).quick_ratio ≠ none) :
    posQ (fd .current_liabilities) = true := by
  by_cases hc : posQ (fd .current_liabilities) = true
  · exact hc
  · rw [Bool.not_eq_true] at hc
    refine absurd ?_ h
    show (if truthy (fd .current_assets) && truthy (fd .current_liabilities) &&
          posQ (fd .current_liabilities) then
        some ((if truthy (fd .inventory) then
                 qget (fd .current_assets) - qget (fd .inventory)
               else if truthy (fd .accounts_receivable) then
                 qget (fd .current_assets) - qget (fd .accounts_receivable)
               else qget (fd .current_assets)) / qget (fd .current_liabilities))
      else none) = none
    simp [hc]

lemma cash_ratio_guard (fd : FinancialMetrics)
    (h : (calculate_ratios fd).cash_ratio ≠ none) :
    posQ (fd .current_liabilities) = true := by
  by_cases hc : posQ (fd .current_liabilities) = true
  · exact hc
  · rw [Bool.not_eq_true] at hc
    refine absurd ?_ h
    show (if truthy (effCash fd) && truthy (fd .current_liabilities) &&
          posQ (fd .current_liabilities) then
        some (qget (effCash fd) / qget (fd .current_liabilities)) else none) = none
    simp [hc]

lemma debt_to_asset_guard (fd : FinancialMetrics)
    (h : (calculate_ratios fd).debt_to_asset_ratio ≠ none) :
    posQ (fd .total_assets) = true := by
  by_cases hc : posQ (fd .total_assets) = true
  · exact hc
  · rw [Bool.not_eq_true] at hc
    refine absurd ?_ h
    show (if truthy (fd .total_assets) && truthy (fd .total_liabilities) &&
          posQ (fd .total_assets) then
        some (qget (fd .total_liabilities) / qget (fd .total_assets) * 100) else none) = none
    simp [hc]

lemma equity_multiplier_guard (fd : FinancialMetrics)
    (h : (calculate_ratios fd).equity_multiplier ≠ none) : posQ (fd .equity) = true := by
  by_cases hc : posQ (fd .equity) = true
  · exact hc
  · rw [Bool.not_eq_true] at hc
    refine absurd ?_ h
    show (if truthy (fd .total_assets) && truthy (fd .equity) && posQ (fd .equity) then
        some (qget (fd .total_assets) / qget (fd .equity)) else none) = none
    simp [hc]

lemma debt_to_equity_guard (fd : FinancialMetrics)
    (h : (calculate_ratios fd).debt_to_equity_ratio ≠ none) : posQ (fd .equity) = true := by
  by_cases hc : posQ (fd .equity) = true
  · exact hc
  · rw [Bool.not_eq_true] at hc
    refine absurd ?_ h
    show (if truthy (fd .total_liabilities) && truthy (fd .equity) && posQ (fd .equity) then
        some (qget (fd .total_liabilities) / qget (fd .equity) * 100) else none) = none
    simp [hc]

lemma interest_coverage_guard (fd : FinancialMetrics)
    (h : (calculate_ratios fd).interest_coverage ≠ none) :
    posQ (fd .interest_expense) = true := by
  by_cases hc : posQ (fd .interest_expense) = true
  · exact hc
  · rw [Bool.not_eq_true] at hc
    refine absurd ?_ h
    show (if truthy (fd .operating_income) && truthy (fd .interest_expense) &&
          posQ (fd .interest_expense) then
        some (qget (fd .operating_income) / qget (fd .interest_expense))
      else if truthy (fd .net_income) && truthy (fd .interest_expense) &&
          posQ (fd .interest_expense) then
        some ((qget (fd .net_income) + qget (fd .interest_expense)) /
          qget (fd .interest_expense))
      else none) = none
    simp [hc]

lemma asset_turnover_guard (fd : FinancialMetrics)
    (h : (calculate_ratios fd).asset_turnover ≠ none) : posQ (fd .total_assets) = true := by
  by_cases hc : posQ (fd .total_assets) = true
  · exact hc
  · rw [Bool.not_eq_true] at hc
    refine absurd ?_ h
    show (if truthy (effRevenue fd) && truthy (fd .total_assets) && posQ (fd .total_assets) then
        some (qget (effRevenue fd) / qget (fd .total_assets)) else none) = none
    simp [hc]

lemma inventory_turnover_guard (fd : FinancialMetrics)
    (h : (calculate_ratios fd).inventory_turnover ≠ none) : posQ (fd .inventory) = true := by
  by_cases hc : posQ (fd .inventory) = true
  · exact hc
  · rw [Bool.not_eq_true] at hc
    refine absurd ?_ h
    show (if truthy (fd .inventory) && posQ (fd .inventory) then
        if truthy (effRevenue fd) then
          some (qget (effRevenue fd) * 0.65 / qget (fd .inventory))
        else none
      else none) = none
    simp [hc]

lemma cash_flow_to_revenue_guard (fd : FinancialMetrics)
    (h : (calculate_ratios fd).cash_flow_to_revenue ≠ none) :
    posQ (effRevenue fd) = true := by
  by_cases hc : posQ (effRevenue fd) = true
  · exact hc
  · rw [Bool.not_eq_true] at hc
    refine absurd ?_ h
    show (if truthy (fd .operating_cash_flow) && truthy (effRevenue fd) &&
          posQ (effRevenue fd) then
        some (qget (fd .operating_cash_flow) / qget (effRevenue fd) * 100) else none) = none
    simp [hc]

/-- No rule group other than the solvency group can emit a "Solvency Risk". -/
lemma profitMarginGroup_noSolv (x : ℚ) :
    (profitMarginGroup x).all (fun r => !(r.rtype == "Solvency Risk")) = true := by
  unfold profitMarginGroup
  split
  · rfl
  · split
    · rfl
    · split <;> rfl

lemma lossGroup_noSolv (ni : Option ℚ) (sofar : List Risk) :
    (lossGroup ni sofar).all (fun r => !(r.rtype == "Solvency Risk")) = true := by
  unfold lossGroup
  split
  · split <;> rfl
  · rfl

lemma roaGroup_noSolv (x : ℚ) :
    (roaGroup x).all (fun r => !(r.rtype == "Solvency Risk")) = true := by
  unfold roaGroup
  split
  · rfl
  · split <;> rfl

lemma roeGroup_noSolv (x : ℚ) :
    (roeGroup x).all (fun r => !(r.rtype == "Solvency Risk")) = true := by
  unfold roeGroup
  split
  · rfl
  · split <;> rfl

lemma currentRatioGroup_noSolv (x : ℚ) :
    (currentRatioGroup x).all (fun r => !(r.rtype == "Solvency Risk")) = true := by
  unfold currentRatioGroup
  split
  · rfl
  · split <;> rfl

lemma quickRatioGroup_noSolv (x : ℚ) :
    (quickRatioGroup x).all (fun r => !(r.rtype == "Solvency Risk")) = true := by
  unfold quickRatioGroup
  split
  · rfl
  · split <;> rfl

lemma debtToAssetGroup_noSolv (x : ℚ) :
    (debtToAssetGroup x).all (fun r => !(r.rtype == "Solvency Risk")) = true := by
  unfold debtToAssetGroup
  split
  · rfl
  · split <;> rfl

lemma debtToEquityGroup_noSolv (x : ℚ) :
    (debtToEquityGroup x).all (fun r => !(r.rtype == "Solvency Risk")) = true := by
  unfold debtToEquityGroup
  split
  · rfl
  · split <;> rfl

lemma ocfGroup_noSolv (x : Option ℚ) :
    (ocfGroup x).all (fun r => !(r.rtype == "Solvency Risk")) = true := by
  unfold ocfGroup
  split
  · split <;> rfl
  · rfl

lemma fcfGroup_noSolv (x : Option ℚ) :
    (fcfGroup x).all (fun r => !(r.rtype == "Solvency Risk")) = true := by
  unfold fcfGroup
  split
  · split <;> rfl
  · rfl

/-!
## Claims
-/

/-- C1 (counterexample): the claim asserts `profit_margin` is present with
value `net_income / revenue * 100` whenever revenue is known and positive
and net_income is known, "in particular also when net_income equals 0"; but
`if revenue and net_income and revenue > 0` uses Python truthiness, so at
`{revenue: 100, net_income: 0}` the key is omitted. -/
theorem c1_counterexample :
    (calculate_ratios (fdOf [(.revenue, 100), (.net_income, 0)])).profit_margin = none := by
  decide

/-- C1 (amended): for every FinancialMetrics with `revenue` known and
strictly positive and `net_income` known and nonzero, `calculate_ratios`
produces `profit_margin = net_income / revenue * 100`; when `net_income`
is known but equal to 0, the `profit_margin` key is omitted. -/
theorem c1_profit_margin_amended :
    (∀ (fd : FinancialMetrics) (r ni : ℚ), fd .revenue = some r → 0 < r →
      fd .net_income = some ni → ni ≠ 0 →
      (calculate_ratios fd).profit_margin = some (ni / r * 100)) ∧
    (∀ (fd : FinancialMetrics) (r : ℚ), fd .revenue = some r → 0 < r →
      fd .net_income = some 0 → (calculate_ratios fd).profit_margin = none) := by
  constructor
  · intro fd r ni hr hrpos hni hnz
    have hrne : r ≠ 0 := ne_of_gt hrpos
    have heff : effRevenue fd = some r := by
      unfold effRevenue pyOr
      rw [hr]
      simp [truthy, hrne]
    show (if truthy (effRevenue fd) && truthy (fd .net_income) && posQ (effRevenue fd) then
        some (qget (fd .net_income) / qget (effRevenue fd) * 100) else none) =
      some (ni / r * 100)
    rw [heff, hni]
    simp [truthy, posQ, qget, hrne, hnz, hrpos]
  · intro fd r hr hrpos hni
    show (if truthy (effRevenue fd) && truthy (fd .net_income) && posQ (effRevenue fd) then
        some (qget (fd .net_income) / qget (effRevenue fd) * 100) else none) = none
    rw [hni]
    simp [truthy]

/-- C1 (witness): the amended formula at `{revenue: 200, net_income: 50}`. -/
theorem c1_witness :
    (fdOf [(.revenue, 200), (.net_income, 50)]) .revenue = some 200 ∧
    (0 : ℚ) < 200 ∧
    (fdOf [(.revenue, 200), (.net_income, 50)]) .net_income = some 50 ∧
    (50 : ℚ) ≠ 0 ∧
    (calculate_ratios (fdOf [(.revenue, 200), (.net_income, 50)])).profit_margin =
      some ((50 : ℚ) / 200 * 100) :=
  ⟨rfl, by norm_num, rfl, by norm_num,
   c1_profit_margin_amended.1 _ 200 50 rfl (by norm_num) rfl (by norm_num)⟩

/-- C2 (counterexample): the claim asserts `assess_risks` on an empty
FinancialMetrics and empty RatioSet yields an empty risk list; it does
not, because every ratio rule group except interest coverage defaults a
missing ratio to 0 (`ratios.get(key, 0)`), and 0 trips the profitability,
asset-efficiency, shareholder-value and both liquidity tiers. -/
theorem c2_counterexample : assess_risks emptyFd {} ≠ [] := by
  have h : assess_risks emptyFd {} =
      [⟨"Profitability Risk", "High"⟩, ⟨"Asset Efficiency Risk", "Medium"⟩,
       ⟨"Shareholder Value Risk", "Medium"⟩, ⟨"Liquidity Risk", "High"⟩,
       ⟨"Liquidity Risk", "High"⟩] := by
    norm_num [assess_risks, profitMarginGroup, lossGroup, roaGroup, roeGroup,
      currentRatioGroup, quickRatioGroup, debtToAssetGroup, debtToEquityGroup,
      solvencyGroup, ocfGroup, fcfGroup, qget, emptyFd]
  rw [h]
  simp

/-- C2 (amended): only the interest-coverage rule evaluates solely when its
ratio is present (so no Solvency Risk is ever emitted when
`interest_coverage` is absent); the other ratio rules default missing
ratios to 0, and `assess_risks` on an empty FinancialMetrics and empty
RatioSet yields exactly five risks: High Profitability, Medium Asset
Efficiency, Medium Shareholder Value, and two High Liquidity risks. -/
theorem c2_amended :
    (assess_risks emptyFd {} =
      [⟨"Profitability Risk", "High"⟩, ⟨"Asset Efficiency Risk", "Medium"⟩,
       ⟨"Shareholder Value Risk", "Medium"⟩, ⟨"Liquidity Risk", "High"⟩,
       ⟨"Liquidity Risk", "High"⟩]) ∧
    (∀ (fd : FinancialMetrics) (rs : RatioSet), rs.interest_coverage = none →
      (assess_risks fd rs).all (fun r => !(r.rtype == "Solvency Risk")) = true) := by
  constructor
  · norm_num [assess_risks, profitMarginGroup, lossGroup, roaGroup, roeGroup,
      currentRatioGroup, quickRatioGroup, debtToAssetGroup, debtToEquityGroup,
      solvencyGroup, ocfGroup, fcfGroup, qget, emptyFd]
  · intro fd rs h
    unfold assess_risks
    rw [h]
    simp only [List.all_append, Bool.and_eq_true]
    exact ⟨⟨⟨⟨⟨⟨⟨⟨⟨⟨profitMarginGroup_noSolv _, lossGroup_noSolv _ _⟩,
      roaGroup_noSolv _⟩, roeGroup_noSolv _⟩, currentRatioGroup_noSolv _⟩,
      quickRatioGroup_noSolv _⟩, debtToAssetGroup_noSolv _⟩,
      debtToEquityGroup_noSolv _⟩, rfl⟩, ocfGroup_noSolv _⟩, fcfGroup_noSolv _⟩

/-- C2 (witness): the presence-guarded solvency rule at the empty inputs. -/
theorem c2_witness :
    ({} : RatioSet).interest_coverage = none ∧
    (assess_risks emptyFd {}).all (fun r => !(r.rtype == "Solvency Risk")) = true :=
  ⟨rfl, c2_amended.2 emptyFd {} rfl⟩

/-- C3 (counterexample): the claim asserts the quick-ratio numerator is
`current_assets - inventory` whenever inventory is known, "including
inventory = 0"; but `if inventory:` is a truthiness test, so at
`{current_assets: 100, current_liabilities: 10, inventory: 0,
accounts_receivable: 30}` the code subtracts accounts_receivable instead,
giving 7 rather than the claimed (100-0)/10 = 10. -/
theorem c3_counterexample :
    (calculate_ratios (fdOf [(.current_assets, 100), (.current_liabilities, 10),
        (.inventory, 0), (.accounts_receivable, 30)])).quick_ratio = some 7 ∧
    ((100 : ℚ) - 0) / 10 ≠ 7 := by
  constructor
  · have h :
        (calculate_ratios (fdOf [(.current_assets, 100), (.current_liabilities, 10),
          (.inventory, 0), (.accounts_receivable, 30)])).quick_ratio =
        some (((100 : ℚ) - 30) / 10) := rfl
    rw [h]
    norm_num
  · norm_num

/-- C3 (amended): for every FinancialMetrics with `current_assets` known and
nonzero and `current_liabilities` known and strictly positive, the
quick-ratio numerator is `current_assets - inventory` when inventory is
known and nonzero; `current_assets - accounts_receivable` when inventory
is unknown or zero and accounts_receivable is known and nonzero; and
`current_assets` unadjusted when both are unknown or zero. -/
theorem c3_quick_ratio_amended :
    ∀ (fd : FinancialMetrics) (ca cl : ℚ),
      fd .current_assets = some ca → ca ≠ 0 →
      fd .current_liabilities = some cl → 0 < cl →
      ((∀ inv : ℚ, fd .inventory = some inv → inv ≠ 0 →
          (calculate_ratios fd).quick_ratio = some ((ca - inv) / cl)) ∧
       (truthy (fd .inventory) = false →
          ∀ ar : ℚ, fd .accounts_receivable = some ar → ar ≠ 0 →
          (calculate_ratios fd).quick_ratio = some ((ca - ar) / cl)) ∧
       (truthy (fd .inventory) = false → truthy (fd .accounts_receivable) = false →
          (calculate_ratios fd).quick_ratio = some (ca / cl))) := by
  intro fd ca cl hca hcane hcl hclpos
  have hclne : cl ≠ 0 := ne_of_gt hclpos
  refine ⟨?_, ?_, ?_⟩
  · intro inv hinv hinvne
    show (if truthy (fd .current_assets) && truthy (fd .current_liabilities) &&
          posQ (fd .current_liabilities) then
        some ((if truthy (fd .inventory) then
                 qget (fd .current_assets) - qget (fd .inventory)
               else if truthy (fd .accounts_receivable) then
                 qget (fd .current_assets) - qget (fd .accounts_receivable)
               else qget (fd .current_assets)) / qget (fd .current_liabilities))
      else none) = some ((ca - inv) / cl)
    rw [hca, hcl, hinv]
    simp [truthy, posQ, qget, hcane, hclne, hclpos, hinvne]
  · intro htr ar har harne
    show (if truthy (fd .current_assets) && truthy (fd .current_liabilities) &&
          posQ (fd .current_liabilities) then
        some ((if truthy (fd .inventory) then
                 qget (fd .current_assets) - qget (fd .inventory)
               else if truthy (fd .accounts_receivable) then
                 qget (fd .current_assets) - qget (fd .accounts_receivable)
               else qget (fd .current_assets)) / qget (fd .current_liabilities))
      else none) = some ((ca - ar) / cl)
    rw [hca, hcl, har, htr]
    simp [truthy, posQ, qget, hcane, hclne, hclpos, harne]
  · intro htr har
    show (if truthy (fd .current_assets) && truthy (fd .current_liabilities) &&
          posQ (fd .current_liabilities) then
        some ((if truthy (fd .inventory) then
                 qget (fd .current_assets) - qget (fd .inventory)
               else if truthy (fd .accounts_receivable) then
                 qget (fd .current_assets) - qget (fd .accounts_receivable)
               else qget (fd .current_assets)) / qget (fd .current_liabilities))
      else none) = some (ca / cl)
    rw [hca, hcl, htr, har]
    simp [truthy, posQ, qget, hcane, hclne, hclpos]

/-- The fixture record of the C3 witness:
`{current_assets: 100, current_liabilities: 10, inventory: 20}`. -/
def c3FixtureFd : FinancialMetrics :=
  fdOf [(.current_assets, 100), (.current_liabilities, 10), (.inventory, 20)]

/-- C3 (witness): the inventory case at
`{current_assets: 100, current_liabilities: 10, inventory: 20}`. -/
theorem c3_witness :
    c3FixtureFd .current_assets = some 100 ∧
    (100 : ℚ) ≠ 0 ∧
    c3FixtureFd .current_liabilities = some 10 ∧
    (0 : ℚ) < 10 ∧
    c3FixtureFd .inventory = some 20 ∧
    (20 : ℚ) ≠ 0 ∧
    (calculate_ratios c3FixtureFd).quick_ratio = some (((100 : ℚ) - 20) / 10) :=
  ⟨rfl, by norm_num, rfl, by norm_num, rfl, by norm_num,
   (c3_quick_ratio_amended c3FixtureFd 100 10 rfl (by norm_num) rfl (by norm_num)).1 20
     rfl (by norm_num)⟩

/-- The fixture record of the C4 merge claim:
a record that already has `revenue` and `net_income` known. -/
def c4FixtureFd : FinancialMetrics := fdOf [(.revenue, 100), (.net_income, 50)]

/-- C4: `merge_llm_structured_data` overwrites a field only when the
external value for that field is known, leaves every field the payload
lacks unchanged, and introduces no keys outside the recognized metric-name
set (a payload whose keys are all unrecognized leaves every field
unchanged); in particular merging a payload with only `revenue` known into
a record with `revenue` and `net_income` known leaves `net_income`
unchanged. -/
theorem c4_merge :
    ((merge_llm_structured_data c4FixtureFd [("revenue", some 999)]).1 .net_income =
        some 50 ∧
     (merge_llm_structured_data c4FixtureFd [("revenue", some 999)]).1 .revenue =
        some 999) ∧
    (∀ (fd : FinancialMetrics) (payload : List (String × Option ℚ)) (k : Field)
        (s : String) (v : ℚ),
      payload.find? (fun p => p.1 == fieldName k) = some (s, some v) →
      (merge_llm_structured_data fd payload).1 k = some v) ∧
    (∀ (fd : FinancialMetrics) (payload : List (String × Option ℚ)) (k : Field),
      payload.find? (fun p => p.1 == fieldName k) = none →
      (merge_llm_structured_data fd payload).1 k = fd k) ∧
    (∀ (fd : FinancialMetrics) (payload : List (String × Option ℚ)) (k : Field)
        (s : String),
      payload.find? (fun p => p.1 == fieldName k) = some (s, none) →
      (merge_llm_structured_data fd payload).1 k = fd k) ∧
    (∀ (fd : FinancialMetrics) (payload : List (String × Option ℚ)),
      (∀ p ∈ payload, (allFields.map fieldName).contains p.1 = false) →
      ∀ k, (merge_llm_structured_data fd payload).1 k = fd k) := by
  refine ⟨⟨by decide, by decide⟩, ?_, ?_, ?_, ?_⟩
  · intro fd payload k s v h
    show (match payload.find? (fun p => p.1 == fieldName k) with
      | some (_, some v) => some v
      | _ => fd k) = some v
    rw [h]
  · intro fd payload k h
    show (match payload.find? (fun p => p.1 == fieldName k) with
      | some (_, some v) => some v
      | _ => fd k) = fd k
    rw [h]
  · intro fd payload k s h
    show (match payload.find? (fun p => p.1 == fieldName k) with
      | some (_, some v) => some v
      | _ => fd k) = fd k
    rw [h]
  · intro fd payload hp k
    have hfind : payload.find? (fun p => p.1 == fieldName k) = none := by
      rw [List.find?_eq_none]
      intro p hmem hbeq
      have hpk : p.1 = fieldName k := by simpa using hbeq
      have hk : (allFields.map fieldName).contains (fieldName k) = true := by
        cases k <;> rfl
      rw [← hpk] at hk
      rw [hp p hmem] at hk
      cases hk
    show (match payload.find? (fun p => p.1 == fieldName k) with
      | some (_, some v) => some v
      | _ => fd k) = fd k
    rw [hfind]

/-- C4 (witness): a payload lacking a field leaves it unchanged. -/
theorem c4_witness :
    ([(("bogus" : String), some (1 : ℚ))].find?
        (fun p => p.1 == fieldName .revenue) = none) ∧
    (merge_llm_structured_data c4FixtureFd [("bogus", some 1)]).1 .revenue =
      c4FixtureFd .revenue :=
  ⟨rfl, c4_merge.2.2.1 c4FixtureFd [("bogus", some 1)] .revenue rfl⟩

/-- C5: a RatioSet built from `{total_assets: 0}` contains neither `roa`
nor `asset_turnover`, and every division of `calculate_ratios` is guarded:
a ratio key produced by a division is present only when its denominator is
known and strictly positive (`posQ` of the denominator; the effective
revenue is `revenue or sales`, the effective cash is
`cash or cash_equivalents`). -/
theorem c5_division_guards :
    (calculate_ratios (fdOf [(.total_assets, 0)])).roa = none ∧
    (calculate_ratios (fdOf [(.total_assets, 0)])).asset_turnover = none ∧
    ∀ fd : FinancialMetrics,
      ((calculate_ratios fd).profit_margin ≠ none → posQ (effRevenue fd) = true) ∧
      ((calculate_ratios fd).gross_margin ≠ none → posQ (effRevenue fd) = true) ∧
      ((calculate_ratios fd).operating_margin ≠ none → posQ (effRevenue fd) = true) ∧
      ((calculate_ratios fd).roa ≠ none → posQ (fd .total_assets) = true) ∧
      ((calculate_ratios fd).roe ≠ none → posQ (fd .equity) = true) ∧
      ((calculate_ratios fd).current_ratio ≠ none → posQ (fd .current_liabilities) = true) ∧
      ((calculate_ratios fd).quick_ratio ≠ none → posQ (fd .current_liabilities) = true) ∧
      ((calculate_ratios fd).cash_ratio ≠ none → posQ (fd .current_liabilities) = true) ∧
      ((calculate_ratios fd).debt_to_asset_ratio ≠ none → posQ (fd .total_assets) = true) ∧
      ((calculate_ratios fd).equity_multiplier ≠ none → posQ (fd .equity) = true) ∧
      ((calculate_ratios fd).debt_to_equity_ratio ≠ none → posQ (fd .equity) = true) ∧
      ((calculate_ratios fd).interest_coverage ≠ none →
        posQ (fd .interest_expense) = true) ∧
      ((calculate_ratios fd).asset_turnover ≠ none → posQ (fd .total_assets) = true) ∧
      ((calculate_ratios fd).inventory_turnover ≠ none → posQ (fd .inventory) = true) ∧
      ((calculate_ratios fd).cash_flow_to_revenue ≠ none → posQ (effRevenue fd) = true) :=
  ⟨by decide, by decide, fun fd =>
    ⟨profit_margin_guard fd, gross_margin_guard fd, operating_margin_guard fd,
     roa_guard fd, roe_guard fd, current_ratio_guard fd, quick_ratio_guard fd,
     cash_ratio_guard fd, debt_to_asset_guard fd, equity_multiplier_guard fd,
     debt_to_equity_guard fd, interest_coverage_guard fd, asset_turnover_guard fd,
     inventory_turnover_guard fd, cash_flow_to_revenue_guard fd⟩⟩

/-- C5 (witness): the profit-margin guard at `{revenue: 100, net_income: 50}`. -/
theorem c5_witness :
    (calculate_ratios (fdOf [(.revenue, 100), (.net_income, 50)])).profit_margin ≠ none ∧
    posQ (effRevenue (fdOf [(.revenue, 100), (.net_income, 50)])) = true :=
  ⟨by decide, ((c5_division_guards.2.2 (fdOf [(.revenue, 100), (.net_income, 50)])).1)
    (by decide)⟩

/-- C6: on `{net_income: 100000}` and `{debt_to_asset_ratio: 70}`,
`assess_risks` yields exactly one Leverage Risk, and — the High tier being
the strict comparison `> 70` — at exactly 70 that single Leverage Risk has
severity Medium (the tiers are checked from most to least severe and only
the first match fires). -/
theorem c6_leverage_boundary :
    (assess_risks (fdOf [(.net_income, 100000)])
        { debt_to_asset_ratio := some 70 }).filter
      (fun r => r.rtype == "Leverage Risk") = [⟨"Leverage Risk", "Medium"⟩] := by
  norm_num [assess_risks, profitMarginGroup, lossGroup, roaGroup, roeGroup,
    currentRatioGroup, quickRatioGroup, debtToAssetGroup, debtToEquityGroup,
    solvencyGroup, ocfGroup, fcfGroup, qget, fdOf, List.find?]
  decide

/-- C7: on the two-period history
`[{revenue: 1000000}, {revenue: 1200000}]` (oldest to newest),
`identify_trends` reports the revenue trend as increasing with growth rate
20.0 and no CAGR key; and on any single-period history it returns the
insufficient-data message with every trend, growth, CAGR and
year-over-year field unset. -/
theorem c7_trends :
    (identify_trends [⟨none, fdOf [(.revenue, 1000000)]⟩,
        ⟨none, fdOf [(.revenue, 1200000)]⟩]).revenue_trend = some "increasing" ∧
    (identify_trends [⟨none, fdOf [(.revenue, 1000000)]⟩,
        ⟨none, fdOf [(.revenue, 1200000)]⟩]).revenue_growth_rate = some 20 ∧
    (identify_trends [⟨none, fdOf [(.revenue, 1000000)]⟩,
        ⟨none, fdOf [(.revenue, 1200000)]⟩]).revenue_cagr = none ∧
    ∀ d : PeriodData,
      (identify_trends [d]).message = some insufficientMsg ∧
      (identify_trends [d]).revenue_trend = none ∧
      (identify_trends [d]).profit_trend = none ∧
      (identify_trends [d]).asset_trend = none ∧
      (identify_trends [d]).revenue_growth_rate = none ∧
      (identify_trends [d]).profit_growth_rate = none ∧
      (identify_trends [d]).asset_growth_rate = none ∧
      (identify_trends [d]).revenue_cagr = none ∧
      (identify_trends [d]).revenue_yoy = none ∧
      (identify_trends [d]).profit_yoy = none := by
  refine ⟨?_, ?_, ?_, ?_⟩
  · have h : (identify_trends [⟨none, fdOf [(.revenue, 1000000)]⟩,
        ⟨none, fdOf [(.revenue, 1200000)]⟩]).revenue_trend =
      some (if 0 < ((1200000 : ℚ) - 1000000) / 1000000 * 100
        then "increasing" else "decreasing") := rfl
    rw [h]
    norm_num
  · have h : (identify_trends [⟨none, fdOf [(.revenue, 1000000)]⟩,
        ⟨none, fdOf [(.revenue, 1200000)]⟩]).revenue_growth_rate =
      some (round2 (((1200000 : ℚ) - 1000000) / 1000000 * 100)) := rfl
    rw [h]
    norm_num [round2, roundHalfEven]
  · rfl
  · intro d
    exact ⟨rfl, rfl, rfl, rfl, rfl, rfl, rfl, rfl, rfl, rfl⟩

/-- C8: comparing `{profit_margin: 6.0, debt_to_asset_ratio: 70.0}` against
the "general" benchmark table (profit_margin 8.0, debt_to_asset_ratio 55.0)
produces exactly one alert, for the leverage ratio (difference 15 ≥ 10),
and none for profit_margin (difference -2, not ≤ -5). -/
theorem c8_benchmark :
    (compareBench DEFAULT_BENCHMARKS emptyFd benchFixtureRs (some "general")).map
      (fun b => b.alerts) = some ["debt_to_asset_ratio"] ∧
    (compareBench DEFAULT_BENCHMARKS emptyFd benchFixtureRs (some "general")).map
      (fun b => b.metrics.map (fun c => (c.metric, c.difference))) =
      some [("profit_margin", -2), ("debt_to_asset_ratio", 15)] := by
  have hn : normalizeIndustry (some "general") = "general" := rfl
  have ht : titleCase "general" = "General" := rfl
  have h1 : ratioGet benchFixtureRs "profit_margin" = some 6.0 := rfl
  have h2 : ratioGet benchFixtureRs "roa" = none := rfl
  have h3 : ratioGet benchFixtureRs "roe" = none := rfl
  have h4 : ratioGet benchFixtureRs "current_ratio" = none := rfl
  have h5 : ratioGet benchFixtureRs "quick_ratio" = none := rfl
  have h6 : ratioGet benchFixtureRs "debt_to_asset_ratio" = some 70.0 := rfl
  have h7 : ratioGet benchFixtureRs "debt_to_equity_ratio" = none := rfl
  have h0 : rsIsEmpty benchFixtureRs = false := rfl
  constructor
  · norm_num [compareBench, hn, ht, h0, h1, h2, h3, h4, h5, h6, h7,
      DEFAULT_BENCHMARKS, compareStep, round2, roundHalfEven, pickMax, pickMin]
    decide
  · norm_num [compareBench, hn, ht, h0, h1, h2, h3, h4, h5, h6, h7,
      DEFAULT_BENCHMARKS, compareStep, round2, roundHalfEven, pickMax, pickMin]

/-- C9: the numeric normalizer's four point equalities:
a parenthesized value is the negative of the enclosed number,
`normalize("(1,234.50)") = -1234.50`; `normalize("$45,000") = 45000.0`;
`normalize("")` is unknown; `normalize("12%") = 12.0`. -/
theorem c9_normalizer :
    to_number (.vStr "(1,234.50)") = some (-1234.50) ∧
    to_number (.vStr "$45,000") = some 45000 ∧
    to_number (.vStr "") = none ∧
    to_number (.vStr "12%") = some 12 := by
  refine ⟨?_, ?_, by decide, ?_⟩
  · have h : to_number (.vStr "(1,234.50)") =
        some (-(((1234 : ℕ) : ℚ) + ((50 : ℕ) : ℚ) / 10 ^ 2)) := rfl
    rw [h]
    norm_num
  · have h : to_number (.vStr "$45,000") = some (((45000 : ℕ) : ℚ)) := rfl
    rw [h]
    norm_num
  · have h : to_number (.vStr "12%") = some (((12 : ℕ) : ℚ)) := rfl
    rw [h]
    norm_num

/-- C10: the number-extraction regex `\d+(?:,\d{3})*(?:\.\d+)?` matches only
unsigned decimal literals, so every number `_extract_numbers` returns is
non-negative, and every metric value the text adapter
`extract_financial_data` assigns (a last-number-of-line, the sales value
copied into revenue, or the sum `operating_cash_flow + investing_cash_flow`)
is non-negative. -/
theorem c10_nonneg :
    (∀ (l : List Char) (q : ℚ), q ∈ extract_numbers l → 0 ≤ q) ∧
    (∀ (text : String) (k : Field) (v : ℚ),
      extract_financial_data text k = some v → 0 ≤ v) :=
  ⟨fun l q h => extract_numbers_nonneg l q h,
   fun text k v h => extract_financial_data_nonneg text k v h⟩

/-- C10 (witness): the extraction result on the line "total assets 500". -/
theorem c10_witness :
    extract_financial_data "total assets 500" .total_assets =
      some (numFromParts ['5', '0', '0'] []) ∧
    (0 : ℚ) ≤ numFromParts ['5', '0', '0'] [] :=
  ⟨rfl, c10_nonneg.2 "total assets 500" .total_assets (numFromParts ['5', '0', '0'] []) rfl⟩

end FinChat
